import Mathlib

/-!
# Greenlight: the movie data-access layer (`internal/data/movies.go`)

A shallow embedding of `MovieModel` (Insert, Get, Update, Delete,
GetAllMovies) over an abstract `database/sql` handle, together with an
in-memory table that gives the five SQL statements of the file a meaning.

Conventions of the embedding:

* Go integers (`int64` ids, years, runtimes, versions, page numbers) are
  `Int`; the field types of `Movie` and `Filters` are declared outside
  `movies.go`, so no width is imposed on them.
* The `Genres` field of a movie is a `List String`; for that field the nil
  slice and the empty slice are both `[]`.
* The `genres` argument of `GetAllMovies` is an `Option (List String)`: `none`
  is the nil slice, `some []` the empty non-nil slice. The two are kept apart
  there because `pq.Array` binds a nil slice as SQL NULL, and the WHERE clause
  of the search treats NULL and the empty array differently.
* A `*Movie` result is an `Option Movie`, an `error` result an `Option Error`
  (`none` is Go's `nil`).
* The per-call `context.WithTimeout` is not modelled separately: a deadline
  that fires shows up as an error outcome of the database handle.
-/

namespace Greenlight

/-! ## Errors -/

/-- Error values that `database/sql` and the driver hand to the caller.
`ErrNoRows` is `sql.ErrNoRows`; `wrap` is an error whose `Unwrap` yields
`inner`; `other` is any error with no wrapped cause. -/
inductive SqlErr where
  | ErrNoRows
  | other (msg : String)
  | wrap (msg : String) (inner : SqlErr)
  deriving DecidableEq, Repr

/-- The call `errors.Is(err, sql.ErrNoRows)`: walk the `Unwrap` chain looking
for the sentinel. -/
def SqlErr.isErrNoRows : SqlErr → Bool
  | .ErrNoRows => true
  | .other _ => false
  | .wrap _ inner => inner.isErrNoRows

/-- Modelled from the spec: the sentinel variables `ErrRecordNotFound` and
`ErrEditConflict` of package `data` are declared outside `movies.go`; spec §7
gives the taxonomy (RecordNotFound, EditConflict, unwrapped store error).
`sql e` is the store error `e` handed on as it was received. -/
inductive Error where
  | ErrRecordNotFound
  | ErrEditConflict
  | sql (e : SqlErr)
  deriving DecidableEq, Repr

/-! ## Values, movies, scanning -/

/-- A point in time; `0` stands for the zero value of Go's `time.Time`. -/
abbrev Time := Int

/-- A driver value: a bound parameter of a statement or a column of a
result row. `array` is a text array as `pq.Array` encodes and decodes it;
`null` is SQL NULL. -/
inductive Value where
  | int (n : Int)
  | text (s : String)
  | time (t : Time)
  | array (a : List String)
  | null
  deriving DecidableEq, Repr

/-- The parameter that `pq.Array(a)` binds for a `[]string` argument `a`:
SQL NULL for the nil slice (`none`), and the text array of its elements for
any other slice, the empty one included. -/
def pq.Array : Option (List String) → Value
  | none => .null
  | some a => .array a

/-- Modelled from the spec: the `Movie` struct is declared outside
`movies.go`; spec §3 lists its fields, and `movies.go` uses exactly these
seven (ID, CreatedAt, Title, Year, Runtime, Genres, Version). -/
structure Movie where
  ID : Int
  CreatedAt : Time
  Title : String
  Year : Int
  Runtime : Int
  Genres : List String
  Version : Int
  deriving DecidableEq, Repr

/-- The zero value of `Movie` (`var data Movie`). -/
def Movie.zero : Movie := ⟨0, 0, "", 0, 0, [], 0⟩

/-- A destination handed to `Scan`: the address of one field of a movie. -/
inductive Dest where
  | ID | CreatedAt | Title | Year | Runtime | Genres | Version
  deriving DecidableEq, Repr

/-- Store one column into one destination; `none` when the column's type does
not fit the field. A NULL column scanned through `pq.Array(&m.Genres)` leaves
the nil slice. -/
def convertAssign (d : Dest) (v : Value) (m : Movie) : Option Movie :=
  match d, v with
  | .ID, .int n => some { m with ID := n }
  | .CreatedAt, .time t => some { m with CreatedAt := t }
  | .Title, .text s => some { m with Title := s }
  | .Year, .int n => some { m with Year := n }
  | .Runtime, .int n => some { m with Runtime := n }
  | .Genres, .array a => some { m with Genres := a }
  | .Genres, .null => some { m with Genres := [] }
  | .Version, .int n => some { m with Version := n }
  | _, _ => none

/-- The conversion loop of `Rows.Scan`: columns are stored left to right, and
the first one that does not fit stops the scan with an error (the fields
stored before it keep their new values). -/
def scanFrom (i : Nat) : List Dest → List Value → Movie → Movie × Option SqlErr
  | d :: ds, v :: vs, m =>
    match convertAssign d v m with
    | some m1 => scanFrom (i + 1) ds vs m1
    | none => (m, some (.other ("sql: Scan error on column index " ++ toString i)))
  | _, _, m => (m, none)

/-- The call `rows.Scan(dest...)` on the current row `cols`. -/
def Scan (dests : List Dest) (cols : List Value) (m : Movie) : Movie × Option SqlErr :=
  if dests.length ≠ cols.length then
    (m, some (.other "sql: wrong number of destination arguments in Scan"))
  else scanFrom 0 dests cols m

/-- The call `row.Scan(dest...)` on the result of `QueryRowContext`: an error
of the query (or `sql.ErrNoRows` for an empty result) is returned before any
destination is touched; otherwise the first row is scanned. -/
def rowScan (row : Except SqlErr (List Value)) (dests : List Dest) (m : Movie) :
    Movie × Option SqlErr :=
  match row with
  | .error e => (m, some e)
  | .ok cols => Scan dests cols m

/-! ## The database handle -/

/-- The result set of `QueryContext`: the rows that `rows.Next()` yields, in
order, and what `rows.Err()` reports once `Next` has returned false. -/
structure Rows where
  rows : List (List Value)
  err : Option SqlErr

/-- The `sql.Result` of `ExecContext`; `RowsAffected` may itself fail. -/
structure Result where
  RowsAffected : Except SqlErr Int

/-- The three entry points of `*sql.DB` that `movies.go` calls, over a store
state `σ`. Each takes the statement text and its bound parameters and returns
the new store state with the outcome. For `QueryRowContext` the outcome is
what `Row.Scan` sees: an error (`sql.ErrNoRows` when no row came back) or the
columns of the first row. -/
structure DB (σ : Type) where
  QueryRowContext : σ → String → List Value → σ × Except SqlErr (List Value)
  ExecContext : σ → String → List Value → σ × Except SqlErr Result
  QueryContext : σ → String → List Value → σ × Except SqlErr Rows

/-! ## MovieModel -/

/-- Statement of `MovieModel.Insert`. -/
def insertSQL : String :=
  "INSERT INTO movies (title, year, runtime, genres) VALUES ($1, $2, $3, $4) RETURNING id,created_at,version"

/-- Statement of `MovieModel.Get`. -/
def selectSQL : String :=
  "SELECT id, created_at, title, year, runtime, genres, version FROM movies WHERE id = $1"

/-- Statement of `MovieModel.Update`. -/
def updateSQL : String :=
  "UPDATE movies SET title = $1, year = $2, runtime = $3, genres = $4, version = version + 1 WHERE id = $5 AND version = $6 RETURNING version"

/-- Statement of `MovieModel.Delete`. -/
def deleteSQL : String :=
  "DELETE FROM movies WHERE id = $1"

/-- The destinations of a full-row scan, in the order of the SELECT list. -/
def movieDests : List Dest :=
  [.ID, .CreatedAt, .Title, .Year, .Runtime, .Genres, .Version]

/-- `func (m MovieModel) Insert(movie *Movie) error`. Returns the store state,
the movie behind the pointer after the call, and the error. -/
def MovieModel.Insert {σ : Type} (db : DB σ) (s : σ) (movie : Movie) :
    σ × Movie × Option Error :=
  let args := [Value.text movie.Title, .int movie.Year, .int movie.Runtime, .array movie.Genres]
  let r := db.QueryRowContext s insertSQL args
  let sc := rowScan r.2 [.ID, .CreatedAt, .Version] movie
  (r.1, sc.1, sc.2.map Error.sql)

/-- `func (m MovieModel) Get(id int64) (*Movie, error)`. -/
def MovieModel.Get {σ : Type} (db : DB σ) (s : σ) (id : Int) :
    σ × Option Movie × Option Error :=
  let r := db.QueryRowContext s selectSQL [.int id]
  match rowScan r.2 movieDests Movie.zero with
  | (_, some err) =>
    if err.isErrNoRows then (r.1, none, some .ErrRecordNotFound)
    else (r.1, none, some (.sql err))
  | (data, none) => (r.1, some data, none)

/-- `func (m MovieModel) Update(movie *Movie) error`. Returns the store state,
the movie behind the pointer after the call, and the error. -/
def MovieModel.Update {σ : Type} (db : DB σ) (s : σ) (movie : Movie) :
    σ × Movie × Option Error :=
  let args := [Value.text movie.Title, .int movie.Year, .int movie.Runtime, .array movie.Genres,
    .int movie.ID, .int movie.Version]
  let r := db.QueryRowContext s updateSQL args
  match rowScan r.2 [.Version] movie with
  | (movie1, some err) =>
    if err.isErrNoRows then (r.1, movie1, some .ErrEditConflict)
    else (r.1, movie1, some (.sql err))
  | (movie1, none) => (r.1, movie1, none)

/-- `func (m MovieModel) Delete(id int64) error`. -/
def MovieModel.Delete {σ : Type} (db : DB σ) (s : σ) (id : Int) : σ × Option Error :=
  match db.ExecContext s deleteSQL [.int id] with
  | (s1, .error err) => (s1, some (.sql err))
  | (s1, .ok res) =>
    match res.RowsAffected with
    | .error err => (s1, some (.sql err))
    | .ok rowsAffected =>
      if rowsAffected = 0 then (s1, some .ErrRecordNotFound) else (s1, none)

/-! ## Filters and GetAllMovies -/

/-- Modelled from the spec: the `Filters` struct is declared outside
`movies.go`; spec §3 gives it Page, PageSize and
SortColumn (the sort value as the caller gave it). -/
structure Filters where
  Page : Int
  PageSize : Int
  SortColumn : String
  deriving DecidableEq, Repr

/-- Modelled from the spec: the method `sortColumn` is not in `movies.go`.
Spec §3 and §9: the sort value is one of the allow-list id, title, year,
runtime, or one of these prefixed with "-", and it is turned into the ORDER BY
column by an explicit enumeration-to-fragment mapping, validated before the
query string is built. A sort value outside the allow-list has no fragment
(`none`), and then no query string is built. -/
def Filters.sortColumn (f : Filters) : Option String :=
  if f.SortColumn = "id" ∨ f.SortColumn = "-id" then some "id"
  else if f.SortColumn = "title" ∨ f.SortColumn = "-title" then some "title"
  else if f.SortColumn = "year" ∨ f.SortColumn = "-year" then some "year"
  else if f.SortColumn = "runtime" ∨ f.SortColumn = "-runtime" then some "runtime"
  else none

/-- Modelled from the spec: the method `sortDirection` is not in `movies.go`.
Spec §3: the descending variant of a sort value is the one prefixed with
"-". -/
def Filters.sortDirection (f : Filters) : String :=
  if f.SortColumn.data.head? = some '-' then "DESC" else "ASC"

/-- Modelled from the spec: the method `limit` is not in `movies.go`.
Spec §4.5: LIMIT = page size. -/
def Filters.limit (f : Filters) : Int := f.PageSize

/-- Modelled from the spec: the method `offset` is not in `movies.go`.
Spec §4.5: OFFSET = (page-1) * page size. -/
def Filters.offset (f : Filters) : Int := (f.Page - 1) * f.PageSize

/-- The text that `fmt.Sprintf` builds in `GetAllMovies`: the raw string of
the source with its two `%s` verbs replaced by `col` and `dir`. -/
def searchSQL (col dir : String) : String :=
  "\n\tSELECT id, created_at, title, year, runtime, genres, version\n\tFROM movies\n\tWHERE (to_tsvector('simple', title) @@ plainto_tsquery('simple', $1) OR $1 = '')\n\tAND (genres @> $2 OR $2 = '\x7b\x7d')\n\tORDER BY "
    ++ col ++ " " ++ dir ++ ", id ASC LIMIT $3 OFFSET $4"

/-- The `for rows.Next()` loop of `GetAllMovies`: every row is scanned into a
fresh `Movie` and appended; the first scan error ends the call. -/
def scanRows : List (List Value) → List Movie → Except SqlErr (List Movie)
  | [], movies => .ok movies
  | cols :: rest, movies =>
    match Scan movieDests cols Movie.zero with
    | (_, some err) => .error err
    | (movie, none) => scanRows rest (movies ++ [movie])

/-- `func (m MovieModel) GetAllMovies(title string, genres []string, filters
Filters) ([]*Movie, error)`. The argument `genres` is `none` for the nil
slice. The result is `none` when `sortColumn` yields no fragment, in which
case no query is issued and nothing is returned; otherwise it is the store
state, the returned slice (the nil slice is `[]`) and the error. -/
def MovieModel.GetAllMovies {σ : Type} (db : DB σ) (s : σ) (title : String)
    (genres : Option (List String)) (filters : Filters) :
    Option (σ × List Movie × Option Error) :=
  match filters.sortColumn with
  | none => none
  | some col =>
    let q := searchSQL col filters.sortDirection
    let args := [Value.text title, pq.Array genres, .int filters.limit, .int filters.offset]
    match db.QueryContext s q args with
    | (s1, .error err) => some (s1, [], some (.sql err))
    | (s1, .ok rows) =>
      match scanRows rows.rows [] with
      | .error err => some (s1, [], some (.sql err))
      | .ok movies =>
        match rows.err with
        | some err => some (s1, [], some (.sql err))
        | none => some (s1, movies, none)

/-! ## An in-memory movies table

The SQL engine is an external collaborator. To state the properties that
speak about what is stored, the five statements of `movies.go` are given
their meaning over a list of rows. -/

/-- A row of the `movies` table, with the seven columns the statements of
`movies.go` name. -/
structure Row where
  id : Int
  created_at : Time
  title : String
  year : Int
  runtime : Int
  genres : List String
  version : Int
  deriving DecidableEq, Repr

/-- The columns of a row in the order of the SELECT lists of `movies.go`. -/
def Row.cols (r : Row) : List Value :=
  [.int r.id, .time r.created_at, .text r.title, .int r.year, .int r.runtime,
    .array r.genres, .int r.version]

/-- The movie that a full-row scan of `r` produces. -/
def Row.toMovie (r : Row) : Movie :=
  ⟨r.id, r.created_at, r.title, r.year, r.runtime, r.genres, r.version⟩

/-- The table: its rows, the next value of the id sequence and the reading of
the store's clock. -/
structure Store where
  rows : List Row
  nextID : Int
  now : Time
  deriving DecidableEq, Repr

/-- Modelled from the spec: the table definition (the migration) is not in
`movies.go`. Spec §3 and §4.1: on creation the store assigns the ID and
CreatedAt and the initial Version 1. The INSERT of `movies.go` names only
title, year, runtime and genres, so the other three columns take these
store-assigned values. -/
def Store.newRow (s : Store) (title : String) (year runtime : Int) (genres : List String) : Row :=
  ⟨s.nextID, s.now, title, year, runtime, genres, 1⟩

/-- Modelled from the spec: the table definition is not in `movies.go`.
Spec §3: ID is the identity of a movie, assigned by the store (so ids are
unique, positive and below the sequence's next value), and CreatedAt is
assigned from the store's clock (which is past Go's zero time). -/
def Store.WF (s : Store) : Prop :=
  (s.rows.map Row.id).Nodup ∧ (∀ r ∈ s.rows, 0 < r.id ∧ r.id < s.nextID) ∧
    0 < s.nextID ∧ s.now ≠ 0

instance (s : Store) : Decidable s.WF := by
  unfold Store.WF; infer_instance

/-- The store's answer to a statement it does not know or whose parameters
do not fit. -/
def badStatement : SqlErr := .other "pq: syntax error or bad parameters"

/-- The row that the UPDATE of `movies.go` leaves in the place of a row `x`
it applies to: the four data columns are replaced and the version goes up by
one. -/
def updatedRow (title : String) (year runtime : Int) (genres : List String) (x : Row) : Row :=
  { x with title := title, year := year, runtime := runtime, genres := genres,
           version := x.version + 1 }

/-- Single-row statements (INSERT .. RETURNING, SELECT by id,
UPDATE .. RETURNING) on the table. -/
def Store.QueryRowContext (s : Store) (q : String) (args : List Value) :
    Store × Except SqlErr (List Value) :=
  if q = insertSQL then
    match args with
    | [.text title, .int year, .int runtime, .array genres] =>
      let row := s.newRow title year runtime genres
      ({ s with rows := s.rows ++ [row], nextID := s.nextID + 1 },
        .ok [.int row.id, .time row.created_at, .int row.version])
    | _ => (s, .error badStatement)
  else if q = selectSQL then
    match args with
    | [.int id] =>
      match s.rows.find? (fun r => decide (r.id = id)) with
      | some r => (s, .ok r.cols)
      | none => (s, .error .ErrNoRows)
    | _ => (s, .error badStatement)
  else if q = updateSQL then
    match args with
    | [.text title, .int year, .int runtime, .array genres, .int id, .int version] =>
      let hit := fun (r : Row) => decide (r.id = id ∧ r.version = version)
      match s.rows.filter hit with
      | [] => (s, .error .ErrNoRows)
      | r :: _ =>
        ({ s with rows := s.rows.map (fun x =>
            if hit x then updatedRow title year runtime genres x else x) },
          .ok [.int (r.version + 1)])
    | _ => (s, .error badStatement)
  else (s, .error badStatement)

/-- The DELETE statement on the table; the result reports the number of rows
removed. -/
def Store.ExecContext (s : Store) (q : String) (args : List Value) :
    Store × Except SqlErr Result :=
  if q = deleteSQL then
    match args with
    | [.int id] =>
      ({ s with rows := s.rows.filter (fun r => decide (r.id ≠ id)) },
        .ok ⟨.ok (s.rows.countP (fun r => decide (r.id = id)))⟩)
    | _ => (s, .error badStatement)
  else (s, .error badStatement)

/-- The array containment `a @> b`: every element of `b` occurs in `a`. -/
def arrayContains (a b : List String) : Bool :=
  b.all (fun g => a.contains g)

/-- SQL's three-valued OR; `none` is NULL. -/
def sqlOr : Option Bool → Option Bool → Option Bool
  | some true, _ => some true
  | _, some true => some true
  | some false, some false => some false
  | _, _ => none

/-- SQL's three-valued AND; `none` is NULL. -/
def sqlAnd : Option Bool → Option Bool → Option Bool
  | some false, _ => some false
  | _, some false => some false
  | some true, some true => some true
  | _, _ => none

/-- The value of the WHERE clause of the search statement on the row `r`,
`(to_tsvector('simple', title) @@ plainto_tsquery('simple', $1) OR $1 = '')
AND (genres @> $2 OR $2 = '{}')`, with the full-text match `fts` of the
engine left as a parameter. `$2` is `none` when it is bound to NULL; a
containment or comparison with NULL is NULL. -/
def Row.whereSearch (fts : String → String → Bool) (title : String)
    (genres : Option (List String)) (r : Row) : Option Bool :=
  sqlAnd (sqlOr (some (fts r.title title)) (some (title == "")))
    (sqlOr (genres.map (fun g => arrayContains r.genres g)) (genres.map (fun g => g == [])))

/-- A row passes the WHERE clause when the clause is TRUE on it (not FALSE,
not NULL). -/
def Row.matchesSearch (fts : String → String → Bool) (title : String)
    (genres : Option (List String)) (r : Row) : Bool :=
  Row.whereSearch fts title genres r == some true

/-- Comparison of two rows on the column named `col`. -/
def colCompare (col : String) (a b : Row) : Ordering :=
  if col = "id" then compare a.id b.id
  else if col = "title" then compare a.title b.title
  else if col = "year" then compare a.year b.year
  else compare a.runtime b.runtime

/-- Comparison on the sort column in the direction `dir`: for DESC the two
rows change places. -/
def dirCompare (col dir : String) (a b : Row) : Ordering :=
  if dir = "DESC" then colCompare col b a else colCompare col a b

/-- The order `ORDER BY col dir, id ASC`: `a` may come before `b`. -/
def orderBy (col dir : String) (a b : Row) : Bool :=
  match dirCompare col dir a b with
  | .lt => true
  | .gt => false
  | .eq => decide (a.id ≤ b.id)

/-- The rows matching the WHERE clause, in the order of the ORDER BY
clause. -/
def Store.orderedMatches (fts : String → String → Bool) (s : Store) (title : String)
    (genres : Option (List String)) (col dir : String) : List Row :=
  (s.rows.filter (Row.matchesSearch fts title genres)).insertionSort
    (fun a b => orderBy col dir a b = true)

/-- Recognise the text of the search statement and read off its ORDER BY
column and direction. -/
def parseSearch (q : String) : Option (String × String) :=
  (["id", "title", "year", "runtime"].product ["ASC", "DESC"]).find?
    (fun cd => decide (q = searchSQL cd.1 cd.2))

/-- Read the parameter `$2` of the search statement: NULL (`some none`) or a
text array; any other value does not fit. -/
def arrayParam : Value → Option (Option (List String))
  | .null => some none
  | .array a => some (some a)
  | _ => none

/-- The search statement on the table: filter, order, skip OFFSET rows, keep
LIMIT rows. A negative LIMIT or OFFSET is an error. -/
def Store.QueryContext (fts : String → String → Bool) (s : Store) (q : String)
    (args : List Value) : Store × Except SqlErr Rows :=
  match parseSearch q with
  | none => (s, .error badStatement)
  | some (col, dir) =>
    match args with
    | [.text title, g, .int limit, .int offset] =>
      match arrayParam g with
      | none => (s, .error badStatement)
      | some genres =>
        if limit < 0 then (s, .error (.other "pq: LIMIT must not be negative"))
        else if offset < 0 then (s, .error (.other "pq: OFFSET must not be negative"))
        else
          (s, .ok ⟨(((s.orderedMatches fts title genres col dir).drop offset.toNat).take
            limit.toNat).map Row.cols, none⟩)
    | _ => (s, .error badStatement)

/-- The in-memory table as a database handle. -/
def memDB (fts : String → String → Bool) : DB Store :=
  ⟨Store.QueryRowContext, Store.ExecContext, Store.QueryContext fts⟩

/-- A database handle that answers nothing and records every statement it is
given, with its bound parameters. -/
def recDB : DB (List (String × List Value)) :=
  ⟨fun log q args => (log ++ [(q, args)], .error .ErrNoRows),
   fun log q args => (log ++ [(q, args)], .error .ErrNoRows),
   fun log q args => (log ++ [(q, args)], .error .ErrNoRows)⟩

/-! ## Sample data -/

/-- A table of three movies, used to evaluate the model on concrete input. -/
def exStore : Store :=
  ⟨[⟨1, 5, "Alpha", 2000, 100, ["drama"], 1⟩,
    ⟨2, 6, "Beta", 1999, 90, ["drama", "comedy"], 3⟩,
    ⟨3, 7, "Gamma", 1999, 80, [], 1⟩], 4, 9⟩

/-- A stand-in for the engine's full-text match, used on concrete input: the
title matches when it equals the search string. -/
def exFts : String → String → Bool := fun title q => title == q

/-- A handle whose every call fails with the error `e`. -/
def failDB (e : SqlErr) : DB Unit :=
  ⟨fun _ _ _ => ((), .error e), fun _ _ _ => ((), .error e), fun _ _ _ => ((), .error e)⟩

/-- A handle whose statements run but whose `RowsAffected` is the given
outcome. -/
def countDB (n : Except SqlErr Int) : DB Unit :=
  ⟨fun _ _ _ => ((), .error .ErrNoRows), fun _ _ _ => ((), .ok ⟨n⟩),
   fun _ _ _ => ((), .error .ErrNoRows)⟩

/-- A handle whose search yields the rows `rows` and then reports `err`. -/
def rowsDB (rows : List (List Value)) (err : Option SqlErr) : DB Unit :=
  ⟨fun _ _ _ => ((), .error .ErrNoRows), fun _ _ _ => ((), .error .ErrNoRows),
   fun _ _ _ => ((), .ok ⟨rows, err⟩)⟩

/-! ## Scanning lemmas -/

theorem scanFrom_err (ds : List Dest) : ∀ (i : Nat) (vs : List Value) (m m1 : Movie) (e : SqlErr),
    scanFrom i ds vs m = (m1, some e) → e.isErrNoRows = false := by
  induction ds with
  | nil => intro i vs m m1 e h; simp [scanFrom] at h
  | cons d ds ih =>
    intro i vs m m1 e h
    cases vs with
    | nil => simp [scanFrom] at h
    | cons v vs =>
      simp only [scanFrom] at h
      cases hc : convertAssign d v m with
      | none =>
        rw [hc] at h
        simp only [Prod.mk.injEq, Option.some.injEq] at h
        rw [← h.2]; rfl
      | some m2 =>
        rw [hc] at h
        exact ih _ _ _ _ _ h

/-- An error that `Scan` itself raises is never `sql.ErrNoRows`. -/
theorem Scan_err (ds : List Dest) (vs : List Value) (m m1 : Movie) (e : SqlErr)
    (h : Scan ds vs m = (m1, some e)) : e.isErrNoRows = false := by
  unfold Scan at h
  split at h
  · simp only [Prod.mk.injEq, Option.some.injEq] at h
    rw [← h.2]; rfl
  · exact scanFrom_err _ _ _ _ _ _ h

/-- A full-row scan of seven well-typed columns fills the seven fields. -/
theorem Scan_movieDests (i c : Int) (t : String) (y rt : Int) (g : List String) (v : Int)
    (m : Movie) :
    Scan movieDests [.int i, .time c, .text t, .int y, .int rt, .array g, .int v] m
      = (⟨i, c, t, y, rt, g, v⟩, none) := by
  simp [Scan, movieDests, scanFrom, convertAssign]

theorem Scan_row (r : Row) (m : Movie) : Scan movieDests r.cols m = (r.toMovie, none) :=
  Scan_movieDests _ _ _ _ _ _ _ _

/-- A scan into the single destination `Version` succeeds exactly on a row of
one integer column. -/
theorem Scan_version_ok (cols : List Value) (m m1 : Movie)
    (h : Scan [.Version] cols m = (m1, none)) :
    ∃ v, cols = [.int v] ∧ m1 = { m with Version := v } := by
  rcases cols with _ | ⟨a, _ | ⟨b, rest⟩⟩
  · simp [Scan] at h
  · cases a <;> simp [Scan, scanFrom, convertAssign] at h
    exact ⟨_, rfl, h.symm⟩
  · simp [Scan] at h

/-- A scan into `ID, CreatedAt, Version` succeeds exactly on a row of an
integer, a time and an integer. -/
theorem Scan_insert_ok (cols : List Value) (m m1 : Movie)
    (h : Scan [.ID, .CreatedAt, .Version] cols m = (m1, none)) :
    ∃ i c v, cols = [.int i, .time c, .int v] ∧
      m1 = { m with ID := i, CreatedAt := c, Version := v } := by
  rcases cols with _ | ⟨a, _ | ⟨b, _ | ⟨c, _ | ⟨d, rest⟩⟩⟩⟩
  · simp [Scan] at h
  · simp [Scan] at h
  · simp [Scan] at h
  · cases a <;> cases b <;> cases c <;> simp [Scan, scanFrom, convertAssign] at h
    exact ⟨_, _, _, rfl, h.symm⟩
  · simp [Scan] at h

/-! ## The statements on the in-memory table -/

theorem updateSQL_ne_insertSQL : updateSQL ≠ insertSQL := by decide
theorem updateSQL_ne_selectSQL : updateSQL ≠ selectSQL := by decide
theorem selectSQL_ne_insertSQL : selectSQL ≠ insertSQL := by decide

theorem Store.update_eq (st : Store) (title : String) (year runtime : Int)
    (genres : List String) (id version : Int) :
    st.QueryRowContext updateSQL
        [.text title, .int year, .int runtime, .array genres, .int id, .int version] =
      match st.rows.filter (fun r => decide (r.id = id ∧ r.version = version)) with
      | [] => (st, .error .ErrNoRows)
      | r :: _ =>
        ({ st with rows := st.rows.map (fun x =>
            if decide (x.id = id ∧ x.version = version) then updatedRow title year runtime genres x
            else x) },
          .ok [.int (r.version + 1)]) := by
  unfold Store.QueryRowContext
  rw [if_neg updateSQL_ne_insertSQL, if_neg updateSQL_ne_selectSQL, if_pos rfl]

theorem Store.select_eq (st : Store) (id : Int) :
    st.QueryRowContext selectSQL [.int id] =
      match st.rows.find? (fun r => decide (r.id = id)) with
      | some r => (st, .ok r.cols)
      | none => (st, .error .ErrNoRows) := by
  unfold Store.QueryRowContext
  rw [if_neg selectSQL_ne_insertSQL, if_pos rfl]

theorem Store.insert_eq (st : Store) (title : String) (year runtime : Int)
    (genres : List String) :
    st.QueryRowContext insertSQL [.text title, .int year, .int runtime, .array genres] =
      ({ st with rows := st.rows ++ [st.newRow title year runtime genres],
                 nextID := st.nextID + 1 },
        .ok [.int st.nextID, .time st.now, .int 1]) := by
  unfold Store.QueryRowContext
  rw [if_pos rfl]
  rfl

theorem Store.delete_eq (st : Store) (id : Int) :
    st.ExecContext deleteSQL [.int id] =
      ({ st with rows := st.rows.filter (fun r => decide (r.id ≠ id)) },
        .ok ⟨.ok (st.rows.countP (fun r => decide (r.id = id)))⟩) := by
  unfold Store.ExecContext
  rw [if_pos rfl]

/-! ## MovieModel on the in-memory table -/

theorem memDB_Get (fts : String → String → Bool) (st : Store) (id : Int) :
    MovieModel.Get (memDB fts) st id =
      match st.rows.find? (fun r => decide (r.id = id)) with
      | some r => (st, some r.toMovie, none)
      | none => (st, none, some Error.ErrRecordNotFound) := by
  unfold MovieModel.Get
  simp only [memDB, Store.select_eq]
  cases st.rows.find? (fun r => decide (r.id = id)) with
  | none => simp [rowScan, SqlErr.isErrNoRows]
  | some r => simp [rowScan, Scan_row]

theorem memDB_Insert (fts : String → String → Bool) (st : Store) (movie : Movie) :
    MovieModel.Insert (memDB fts) st movie =
      ({ st with rows := st.rows ++ [st.newRow movie.Title movie.Year movie.Runtime movie.Genres],
                 nextID := st.nextID + 1 },
        { movie with ID := st.nextID, CreatedAt := st.now, Version := 1 }, none) := by
  unfold MovieModel.Insert
  simp [memDB, Store.insert_eq, rowScan, Scan, scanFrom, convertAssign]

theorem memDB_Update (fts : String → String → Bool) (st : Store) (movie : Movie) :
    MovieModel.Update (memDB fts) st movie =
      match st.rows.filter (fun r => decide (r.id = movie.ID ∧ r.version = movie.Version)) with
      | [] => (st, movie, some Error.ErrEditConflict)
      | r :: _ =>
        ({ st with rows := st.rows.map (fun x =>
            if decide (x.id = movie.ID ∧ x.version = movie.Version) then
              updatedRow movie.Title movie.Year movie.Runtime movie.Genres x
            else x) },
          { movie with Version := r.version + 1 }, none) := by
  unfold MovieModel.Update
  simp only [memDB, Store.update_eq]
  cases st.rows.filter (fun r => decide (r.id = movie.ID ∧ r.version = movie.Version)) with
  | nil => simp [rowScan, SqlErr.isErrNoRows]
  | cons r rest => simp [rowScan, Scan, scanFrom, convertAssign]

theorem memDB_Delete (fts : String → String → Bool) (st : Store) (id : Int) :
    MovieModel.Delete (memDB fts) st id =
      ({ st with rows := st.rows.filter (fun r => decide (r.id ≠ id)) },
        if st.rows.countP (fun r => decide (r.id = id)) = 0 then some Error.ErrRecordNotFound
        else none) := by
  unfold MovieModel.Delete
  simp only [memDB, Store.delete_eq]
  by_cases h : st.rows.countP (fun r => decide (r.id = id)) = 0
  · simp [h]
  · have : ((st.rows.countP (fun r => decide (r.id = id)) : Nat) : Int) ≠ 0 := by exact_mod_cast h
    simp [h, this]

/-! ## GetAllMovies: rows, sort fragments, the search statement -/

theorem scanRows_rows (rs : List Row) : ∀ acc : List Movie,
    scanRows (rs.map Row.cols) acc = .ok (acc ++ rs.map Row.toMovie) := by
  induction rs with
  | nil => intro acc; simp [scanRows]
  | cons r rs ih =>
    intro acc
    simp only [List.map_cons, scanRows, Scan_row]
    rw [ih]
    simp

theorem scanRows_bad (rs : List Row) (bad : List Value) (post : List (List Value)) (m : Movie)
    (e : SqlErr) (hbad : Scan movieDests bad Movie.zero = (m, some e)) : ∀ acc : List Movie,
    scanRows (rs.map Row.cols ++ bad :: post) acc = .error e := by
  induction rs with
  | nil => intro acc; simp [scanRows, hbad]
  | cons r rs ih =>
    intro acc
    simp only [List.map_cons, List.cons_append, scanRows, Scan_row]
    exact ih _

theorem sortColumn_some (f : Filters) (col : String) (h : f.sortColumn = some col) :
    (col = "id" ∨ col = "title" ∨ col = "year" ∨ col = "runtime") ∧
    ((f.SortColumn = col ∧ f.sortDirection = "ASC") ∨
      (f.SortColumn = "-" ++ col ∧ f.sortDirection = "DESC")) := by
  unfold Filters.sortColumn at h
  unfold Filters.sortDirection
  split_ifs at h with h1 h2 h3 h4
  all_goals (simp only [Option.some.injEq] at h; subst h)
  · rcases h1 with h1 | h1 <;> rw [h1] <;> decide
  · rcases h2 with h1 | h1 <;> rw [h1] <;> decide
  · rcases h3 with h1 | h1 <;> rw [h1] <;> decide
  · rcases h4 with h1 | h1 <;> rw [h1] <;> decide

set_option maxRecDepth 4000 in
theorem parseSearch_searchSQL (col dir : String)
    (hcol : col = "id" ∨ col = "title" ∨ col = "year" ∨ col = "runtime")
    (hdir : dir = "ASC" ∨ dir = "DESC") :
    parseSearch (searchSQL col dir) = some (col, dir) := by
  rcases hcol with h | h | h | h <;> rcases hdir with h' | h' <;> subst h <;> subst h' <;> decide

theorem arrayParam_pqArray (genres : Option (List String)) :
    arrayParam (pq.Array genres) = some genres := by
  cases genres <;> rfl

theorem Store.query_eq (fts : String → String → Bool) (st : Store) (col dir title : String)
    (genres : Option (List String)) (limit offset : Int)
    (hcol : col = "id" ∨ col = "title" ∨ col = "year" ∨ col = "runtime")
    (hdir : dir = "ASC" ∨ dir = "DESC") (hl : 0 ≤ limit) (ho : 0 ≤ offset) :
    st.QueryContext fts (searchSQL col dir)
        [.text title, pq.Array genres, .int limit, .int offset]
      = (st, .ok ⟨(((st.orderedMatches fts title genres col dir).drop offset.toNat).take
          limit.toNat).map Row.cols, none⟩) := by
  unfold Store.QueryContext
  rw [parseSearch_searchSQL col dir hcol hdir]
  simp only [arrayParam_pqArray]
  rw [if_neg (not_lt.2 hl), if_neg (not_lt.2 ho)]

theorem memDB_GetAllMovies (fts : String → String → Bool) (st : Store) (title : String)
    (genres : Option (List String)) (f : Filters) (col : String) (hcol : f.sortColumn = some col)
    (hl : 0 ≤ f.limit) (ho : 0 ≤ f.offset) :
    MovieModel.GetAllMovies (memDB fts) st title genres f =
      some (st, (((st.orderedMatches fts title genres col f.sortDirection).drop
        f.offset.toNat).take f.limit.toNat).map Row.toMovie, none) := by
  have hs := sortColumn_some f col hcol
  have hdir : f.sortDirection = "ASC" ∨ f.sortDirection = "DESC" := by
    rcases hs.2 with h | h
    · exact Or.inl h.2
    · exact Or.inr h.2
  unfold MovieModel.GetAllMovies
  rw [hcol]
  simp only [memDB]
  rw [Store.query_eq fts st col _ title genres _ _ hs.1 hdir hl ho]
  simp only [scanRows_rows, List.nil_append]

/-! ## The ORDER BY relation -/

theorem compare_swap_lin {α : Type} [LinearOrder α] (a b : α) :
    (compare a b).swap = compare b a := by
  rcases lt_trichotomy a b with h | h | h
  · rw [compare_lt_iff_lt.2 h, compare_gt_iff_gt.2 h]; rfl
  · subst h; rw [compare_eq_iff_eq.2 rfl]; rfl
  · rw [compare_gt_iff_gt.2 h, compare_lt_iff_lt.2 h]; rfl

theorem colCompare_swap (col : String) (a b : Row) :
    (colCompare col a b).swap = colCompare col b a := by
  unfold colCompare
  split_ifs <;> exact compare_swap_lin _ _

theorem colCompare_le_trans (col : String) (a b c : Row)
    (h1 : colCompare col a b ≠ .gt) (h2 : colCompare col b c ≠ .gt) :
    colCompare col a c ≠ .gt := by
  unfold colCompare at *
  split_ifs at * <;> rw [compare_le_iff_le] at * <;> exact le_trans h1 h2

theorem dirCompare_swap (col dir : String) (a b : Row) :
    (dirCompare col dir a b).swap = dirCompare col dir b a := by
  unfold dirCompare
  split_ifs <;> exact colCompare_swap _ _ _

theorem dirCompare_le_trans (col dir : String) (a b c : Row)
    (h1 : dirCompare col dir a b ≠ .gt) (h2 : dirCompare col dir b c ≠ .gt) :
    dirCompare col dir a c ≠ .gt := by
  unfold dirCompare at *
  split_ifs at *
  · intro h
    have e1 : colCompare col a b ≠ .lt := by
      intro h'; apply h1; rw [← colCompare_swap, h']; rfl
    have e2 : colCompare col b c ≠ .lt := by
      intro h'; apply h2; rw [← colCompare_swap, h']; rfl
    have e3 : colCompare col a c = .lt := by
      rw [← colCompare_swap, h]; rfl
    -- a ≤ c strictly below, yet b ≤ a and c ≤ b
    have g1 : colCompare col c b ≠ .gt := by
      intro h'; apply e2; rw [← colCompare_swap, h']; rfl
    have g2 : colCompare col b a ≠ .gt := by
      intro h'; apply e1; rw [← colCompare_swap, h']; rfl
    have g3 := colCompare_le_trans col c b a g1 g2
    apply g3; rw [← colCompare_swap, e3]; rfl
  · exact colCompare_le_trans col a b c h1 h2

theorem orderBy_eq (col dir : String) (a b : Row) :
    orderBy col dir a b =
      match dirCompare col dir a b with
      | .lt => true
      | .gt => false
      | .eq => decide (a.id ≤ b.id) := rfl

theorem orderBy_total (col dir : String) (a b : Row) :
    orderBy col dir a b = true ∨ orderBy col dir b a = true := by
  rw [orderBy_eq, orderBy_eq, ← dirCompare_swap col dir a b]
  cases dirCompare col dir a b <;> simp [Ordering.swap]
  exact le_total _ _

theorem orderBy_trans (col dir : String) (a b c : Row)
    (h1 : orderBy col dir a b = true) (h2 : orderBy col dir b c = true) :
    orderBy col dir a c = true := by
  rw [orderBy_eq] at *
  have hab : dirCompare col dir a b ≠ .gt := by
    intro h; rw [h] at h1; simp at h1
  have hbc : dirCompare col dir b c ≠ .gt := by
    intro h; rw [h] at h2; simp at h2
  have hac := dirCompare_le_trans col dir a b c hab hbc
  cases hx : dirCompare col dir a c with
  | lt => rfl
  | gt => exact absurd hx hac
  | eq =>
    -- then both steps are ties on the column
    have hba : dirCompare col dir b a ≠ .gt := by
      -- b ≤ c and c ≤ a
      have hca : dirCompare col dir c a ≠ .gt := by
        rw [← dirCompare_swap, hx]; simp [Ordering.swap]
      exact dirCompare_le_trans col dir b c a hbc hca
    have hcb : dirCompare col dir c b ≠ .gt := by
      have hca : dirCompare col dir c a ≠ .gt := by
        rw [← dirCompare_swap, hx]; simp [Ordering.swap]
      exact dirCompare_le_trans col dir c a b hca hab
    have eab : dirCompare col dir a b = .eq := by
      cases hy : dirCompare col dir a b with
      | lt => exfalso; apply hba; rw [← dirCompare_swap, hy]; rfl
      | gt => exact absurd hy hab
      | eq => rfl
    have ebc : dirCompare col dir b c = .eq := by
      cases hy : dirCompare col dir b c with
      | lt => exfalso; apply hcb; rw [← dirCompare_swap, hy]; rfl
      | gt => exact absurd hy hbc
      | eq => rfl
    rw [eab] at h1
    rw [ebc] at h2
    simp only [decide_eq_true_eq] at h1 h2 ⊢
    exact le_trans h1 h2

theorem orderedMatches_sorted (fts : String → String → Bool) (st : Store) (title : String)
    (genres : Option (List String)) (col dir : String) :
    List.Sorted (fun a b => orderBy col dir a b = true)
      (st.orderedMatches fts title genres col dir) := by
  haveI : IsTotal Row (fun a b => orderBy col dir a b = true) := ⟨orderBy_total col dir⟩
  haveI : IsTrans Row (fun a b => orderBy col dir a b = true) := ⟨orderBy_trans col dir⟩
  exact List.sorted_insertionSort _ _

theorem orderedMatches_perm (fts : String → String → Bool) (st : Store) (title : String)
    (genres : Option (List String)) (col dir : String) :
    (st.orderedMatches fts title genres col dir).Perm
      (st.rows.filter (Row.matchesSearch fts title genres)) :=
  List.perm_insertionSort _ _

theorem orderedMatches_ids_nodup (fts : String → String → Bool) (st : Store) (title : String)
    (genres : Option (List String)) (col dir : String) (h : (st.rows.map Row.id).Nodup) :
    ((st.orderedMatches fts title genres col dir).map Row.id).Nodup := by
  have h1 : ((st.rows.filter (Row.matchesSearch fts title genres)).map Row.id).Nodup :=
    h.sublist ((List.filter_sublist _).map _)
  exact ((orderedMatches_perm fts st title genres col dir).map Row.id).nodup_iff.2 h1

/-! ## Further lemmas on the table and the search -/

theorem find_id_map (f : Row → Row) (hf : ∀ x, (f x).id = x.id) (id : Int) (rows : List Row) :
    (rows.map f).find? (fun r => decide (r.id = id))
      = (rows.find? (fun r => decide (r.id = id))).map f := by
  induction rows with
  | nil => rfl
  | cons x xs ih =>
    simp only [List.map_cons, List.find?_cons, hf]
    by_cases h : x.id = id
    · simp [h]
    · simp [h, ih]

theorem find_id_none (rows : List Row) (id : Int) (h : ∀ r ∈ rows, r.id ≠ id) :
    rows.find? (fun r => decide (r.id = id)) = none := by
  rw [List.find?_eq_none]
  intro r hr
  simpa using h r hr

theorem recDB_GetAllMovies (log : List (String × List Value)) (title : String)
    (genres : Option (List String)) (f : Filters) (col : String) (hcol : f.sortColumn = some col) :
    MovieModel.GetAllMovies recDB log title genres f =
      some (log ++ [(searchSQL col f.sortDirection,
          [.text title, pq.Array genres, .int f.limit, .int f.offset])],
        [], some (Error.sql .ErrNoRows)) := by
  unfold MovieModel.GetAllMovies
  rw [hcol]
  rfl

theorem GetAllMovies_none {σ : Type} (db : DB σ) (s : σ) (title : String)
    (genres : Option (List String)) (f : Filters) (h : f.sortColumn = none) :
    MovieModel.GetAllMovies db s title genres f = none := by
  unfold MovieModel.GetAllMovies
  rw [h]

theorem sortColumn_of_not_mem (f : Filters)
    (h : f.SortColumn ∉ ["id", "title", "year", "runtime", "-id", "-title", "-year", "-runtime"]) :
    f.sortColumn = none := by
  simp only [List.mem_cons, List.mem_singleton, List.not_mem_nil, or_false, not_or] at h
  unfold Filters.sortColumn
  simp [h]

theorem take_ids_nodup (l : List Row) (n : Nat) (h : (l.map Row.id).Nodup) :
    (((l.take n).map Row.toMovie).map Movie.ID).Nodup := by
  have e : ((l.take n).map Row.toMovie).map Movie.ID = (l.take n).map Row.id := by
    rw [List.map_map]; rfl
  rw [e]
  exact h.sublist ((List.take_sublist n l).map _)

/-- For a non-nil genres argument the WHERE clause is two-valued. -/
theorem matchesSearch_some (fts : String → String → Bool) (title : String)
    (genres : List String) (r : Row) :
    Row.matchesSearch fts title (some genres) r
      = ((fts r.title title || title == "") && (arrayContains r.genres genres || genres == [])) := by
  unfold Row.matchesSearch Row.whereSearch
  simp only [Option.map_some']
  cases fts r.title title <;> cases (title == "") <;> cases arrayContains r.genres genres <;>
    cases (genres == []) <;> rfl

/-- For a nil genres argument, bound as NULL, the WHERE clause is TRUE on no
row. -/
theorem matchesSearch_nil (fts : String → String → Bool) (title : String) (r : Row) :
    Row.matchesSearch fts title none r = false := by
  unfold Row.matchesSearch Row.whereSearch
  simp only [Option.map_none']
  cases fts r.title title <;> cases (title == "") <;> rfl

theorem matchesSearch_empty_title (fts : String → String → Bool) (genres : List String)
    (r : Row) :
    Row.matchesSearch fts "" (some genres) r = true ↔ ∀ g ∈ genres, g ∈ r.genres := by
  rw [matchesSearch_some]
  unfold arrayContains
  have hc : ∀ g, r.genres.contains g = true ↔ g ∈ r.genres := fun g => by simp
  simp only [beq_self_eq_true, Bool.or_true, Bool.true_and, Bool.or_eq_true, List.all_eq_true,
    hc, beq_iff_eq]
  constructor
  · rintro (h | h)
    · exact h
    · subst h; intro g hg; cases hg
  · intro h; exact Or.inl h

theorem orderBy_id_asc (a b : Row) (h : orderBy "id" "ASC" a b = true) : a.id ≤ b.id := by
  rw [orderBy_eq] at h
  have e : dirCompare "id" "ASC" a b = compare a.id b.id := by
    unfold dirCompare colCompare
    rw [if_neg (by decide), if_pos rfl]
  rw [e] at h
  cases hc : compare a.id b.id with
  | lt => exact le_of_lt (compare_lt_iff_lt.1 hc)
  | eq => exact le_of_eq (compare_eq_iff_eq.1 hc)
  | gt => rw [hc] at h; cases h

/-- A successful run of the row loop has scanned every row, in order. -/
theorem scanRows_ok (rows : List (List Value)) : ∀ (acc ms : List Movie),
    scanRows rows acc = .ok ms →
      ms = acc ++ rows.map (fun cols => (Scan movieDests cols Movie.zero).1) := by
  induction rows with
  | nil => intro acc ms h; simp [scanRows] at h; simp [h]
  | cons cols rest ih =>
    intro acc ms h
    simp only [scanRows] at h
    rcases hs : Scan movieDests cols Movie.zero with ⟨m, _ | e⟩
    · rw [hs] at h
      simp only at h
      rw [ih _ _ h]
      simp [hs]
    · rw [hs] at h
      simp at h

/-- The search on the table for a non-nil genres argument and an empty title
search string: with the empty slice every row passes the WHERE clause; with
any non-nil slice a row passes exactly when its genres contain every
requested genre (containment, not equality). So
`GetAllMovies("", []string{}, {1, 20, "id"})` returns the first 20 of all
rows in ascending id order; the call returns the page of the rows containing
all requested genres; and with genres `["drama"]` every returned movie has
"drama" among its genres. -/
theorem GetAllMovies_genre_filter_nonnil (fts : String → String → Bool) (st : Store)
    (genres : List String) (f : Filters) (col : String) (hcol : f.sortColumn = some col)
    (hl : 0 ≤ f.limit) (ho : 0 ≤ f.offset) :
    (∀ r : Row, Row.matchesSearch fts "" (some []) r = true) ∧
    (∀ r : Row, Row.matchesSearch fts "" (some genres) r = true ↔ ∀ g ∈ genres, g ∈ r.genres) ∧
    (∃ sorted : List Row, sorted.Perm st.rows ∧ List.Sorted (fun a b => a.id ≤ b.id) sorted ∧
      MovieModel.GetAllMovies (memDB fts) st "" (some []) ⟨1, 20, "id"⟩
        = some (st, (sorted.take 20).map Row.toMovie, none)) ∧
    (∃ sorted : List Row,
      sorted.Perm (st.rows.filter (fun r => decide (∀ g ∈ genres, g ∈ r.genres))) ∧
      List.Sorted (fun a b => orderBy col f.sortDirection a b = true) sorted ∧
      MovieModel.GetAllMovies (memDB fts) st "" (some genres) f
        = some (st, ((sorted.drop f.offset.toNat).take f.limit.toNat).map Row.toMovie, none)) ∧
    (∀ out, MovieModel.GetAllMovies (memDB fts) st "" (some ["drama"]) f = some out →
      ∀ m ∈ out.2.1, "drama" ∈ m.Genres) := by
  refine ⟨?_, matchesSearch_empty_title fts genres, ?_, ?_, ?_⟩
  · intro r
    rw [matchesSearch_empty_title]
    intro g hg; cases hg
  · refine ⟨st.orderedMatches fts "" (some []) "id" "ASC", ?_, ?_, ?_⟩
    · have hp := orderedMatches_perm fts st "" (some []) "id" "ASC"
      have hall : st.rows.filter (Row.matchesSearch fts "" (some [])) = st.rows := by
        rw [List.filter_eq_self]
        intro r _
        rw [matchesSearch_empty_title]
        intro g hg; cases hg
      rw [hall] at hp
      exact hp
    · exact (orderedMatches_sorted fts st "" (some []) "id" "ASC").imp (fun h => orderBy_id_asc _ _ h)
    · have h := memDB_GetAllMovies fts st "" (some []) ⟨1, 20, "id"⟩ "id" (by decide) (by decide)
        (by decide)
      rw [h]
      have e1 : (⟨1, 20, "id"⟩ : Filters).sortDirection = "ASC" := by decide
      have e2 : (⟨1, 20, "id"⟩ : Filters).offset.toNat = 0 := by decide
      have e3 : (⟨1, 20, "id"⟩ : Filters).limit.toNat = 20 := by decide
      rw [e1, e2, e3, List.drop_zero]
  · refine ⟨st.orderedMatches fts "" (some genres) col f.sortDirection, ?_,
      orderedMatches_sorted _ _ _ _ _ _, memDB_GetAllMovies fts st "" (some genres) f col hcol hl ho⟩
    have hp := orderedMatches_perm fts st "" (some genres) col f.sortDirection
    have hfil : st.rows.filter (Row.matchesSearch fts "" (some genres))
        = st.rows.filter (fun r => decide (∀ g ∈ genres, g ∈ r.genres)) := by
      apply List.filter_congr
      intro r _
      rw [Bool.eq_iff_iff, matchesSearch_empty_title]
      simp
    rw [hfil] at hp
    exact hp
  · intro out hout m hm
    rw [memDB_GetAllMovies fts st "" (some ["drama"]) f col hcol hl ho] at hout
    cases hout
    simp only [List.mem_map] at hm
    obtain ⟨r, hr, rfl⟩ := hm
    have hr1 : r ∈ st.orderedMatches fts "" (some ["drama"]) col f.sortDirection :=
      List.mem_of_mem_drop (List.mem_of_mem_take hr)
    have hr2 : r ∈ st.rows.filter (Row.matchesSearch fts "" (some ["drama"])) :=
      (orderedMatches_perm fts st "" (some ["drama"]) col f.sortDirection).mem_iff.1 hr1
    have hr3 := (List.mem_filter.1 hr2).2
    rw [matchesSearch_empty_title] at hr3
    exact hr3 "drama" (by simp)

/-- The search on the table for the nil genres slice: whatever the title and
the page, no movie is returned, and the error is nil. -/
theorem memDB_GetAllMovies_nil (fts : String → String → Bool) (st : Store) (title : String)
    (f : Filters) (col : String) (hcol : f.sortColumn = some col)
    (hl : 0 ≤ f.limit) (ho : 0 ≤ f.offset) :
    MovieModel.GetAllMovies (memDB fts) st title none f = some (st, [], none) := by
  rw [memDB_GetAllMovies fts st title none f col hcol hl ho]
  have hnil : st.rows.filter (Row.matchesSearch fts title none) = [] := by
    rw [List.filter_eq_nil_iff]
    intro r _
    simp [matchesSearch_nil]
  unfold Store.orderedMatches
  rw [hnil]
  simp

/-! ## The claims -/

/-- C1. Optimistic concurrency of `Update` on the table: when `Get(id)` has
returned a movie with version `v`, an `Update` with a movie of that id and
version returns nil and leaves the movie's `Version` at `v + 1`; the stored
row then carries version `v + 1`; and a further `Update` for the same id that
still carries the stale version `v` returns `ErrEditConflict`, with the table
and the movie left as they were. -/
theorem Update_optimistic (fts : String → String → Bool) (st : Store) (id : Int)
    (fetched : Movie) (hget : (MovieModel.Get (memDB fts) st id).2 = (some fetched, none))
    (movie : Movie) (hid : movie.ID = id) (hver : movie.Version = fetched.Version) :
    (MovieModel.Update (memDB fts) st movie).2
        = ({ movie with Version := fetched.Version + 1 }, none) ∧
    (∃ stored, (MovieModel.Get (memDB fts) (MovieModel.Update (memDB fts) st movie).1 id).2
        = (some stored, none) ∧ stored.Version = fetched.Version + 1) ∧
    (∀ stale : Movie, stale.ID = id → stale.Version = fetched.Version →
      MovieModel.Update (memDB fts) (MovieModel.Update (memDB fts) st movie).1 stale
        = ((MovieModel.Update (memDB fts) st movie).1, stale, some Error.ErrEditConflict)) := by
  rw [memDB_Get] at hget
  cases hfind : st.rows.find? (fun r => decide (r.id = id)) with
  | none => rw [hfind] at hget; simp at hget
  | some r0 =>
    rw [hfind] at hget
    simp only [Prod.mk.injEq, Option.some.injEq, and_true] at hget
    have hr0id : r0.id = id := by simpa using List.find?_some hfind
    have hr0mem : r0 ∈ st.rows := List.mem_of_find?_eq_some hfind
    have hr0ver : r0.version = movie.Version := by rw [hver, ← hget]; rfl
    have hv : fetched.Version = movie.Version := hver.symm
    have hhit : r0 ∈ st.rows.filter
        (fun r => decide (r.id = movie.ID ∧ r.version = movie.Version)) := by
      simp [List.mem_filter, hr0mem, hr0id, hid, hr0ver]
    cases hfil : st.rows.filter
        (fun r => decide (r.id = movie.ID ∧ r.version = movie.Version)) with
    | nil => rw [hfil] at hhit; simp at hhit
    | cons r rest =>
      have hrmem : r ∈ st.rows.filter
          (fun r => decide (r.id = movie.ID ∧ r.version = movie.Version)) := by
        rw [hfil]; simp
      have hrver : r.version = movie.Version := by
        have := (List.mem_filter.1 hrmem).2
        simp at this; exact this.2
      have hupd := memDB_Update fts st movie
      rw [hfil] at hupd
      simp only at hupd
      rw [hupd]
      refine ⟨by simp [hrver, hv], ?_, ?_⟩
      · refine ⟨(updatedRow movie.Title movie.Year movie.Runtime movie.Genres r0).toMovie, ?_, ?_⟩
        · rw [memDB_Get]
          simp only
          rw [find_id_map _ (by intro x; split <;> rfl), hfind]
          simp [hr0id, hid, hr0ver]
        · simp [updatedRow, Row.toMovie, hr0ver, hv]
      · intro stale hsid hsver
        rw [memDB_Update]
        simp only
        have hnone : (st.rows.map (fun x =>
            if decide (x.id = movie.ID ∧ x.version = movie.Version) then
              updatedRow movie.Title movie.Year movie.Runtime movie.Genres x
            else x)).filter (fun r => decide (r.id = stale.ID ∧ r.version = stale.Version))
              = [] := by
          rw [List.filter_eq_nil_iff]
          intro y hy
          obtain ⟨x, -, rfl⟩ := List.mem_map.1 hy
          by_cases hx : x.id = movie.ID ∧ x.version = movie.Version
          · simp [hx, updatedRow, hsver, hv]
          · simp only [hx, decide_False, Bool.false_eq_true, if_false]
            simpa [hsid, hsver, hv, hid] using hx
        rw [hnone]

/-- Witness for C1 on the sample table: movie 2 is fetched at version 3, a
first update takes it to version 4, and an update still carrying version 3
is an edit conflict. -/
theorem Update_optimistic_witness :
    (MovieModel.Get (memDB exFts) exStore 2).2
        = (some ⟨2, 6, "Beta", 1999, 90, ["drama", "comedy"], 3⟩, none) ∧
    (MovieModel.Update (memDB exFts) exStore ⟨2, 6, "Beta II", 2001, 95, ["drama"], 3⟩).2
        = (⟨2, 6, "Beta II", 2001, 95, ["drama"], 4⟩, none) ∧
    MovieModel.Update (memDB exFts)
        (MovieModel.Update (memDB exFts) exStore ⟨2, 6, "Beta II", 2001, 95, ["drama"], 3⟩).1
        ⟨2, 6, "Beta III", 2002, 99, [], 3⟩
      = ((MovieModel.Update (memDB exFts) exStore ⟨2, 6, "Beta II", 2001, 95, ["drama"], 3⟩).1,
          ⟨2, 6, "Beta III", 2002, 99, [], 3⟩, some Error.ErrEditConflict) :=
  ⟨by decide,
   (Update_optimistic exFts exStore 2 ⟨2, 6, "Beta", 1999, 90, ["drama", "comedy"], 3⟩
      (by decide) ⟨2, 6, "Beta II", 2001, 95, ["drama"], 3⟩ rfl rfl).1,
   (Update_optimistic exFts exStore 2 ⟨2, 6, "Beta", 1999, 90, ["drama", "comedy"], 3⟩
      (by decide) ⟨2, 6, "Beta II", 2001, 95, ["drama"], 3⟩ rfl rfl).2.2
      ⟨2, 6, "Beta III", 2002, 99, [], 3⟩ rfl rfl⟩

/-- C2. For every movie and every outcome of the store, `Update` returns
`ErrEditConflict` exactly when the single-row result is `sql.ErrNoRows`
(possibly wrapped); any other store error is returned as it was received; nil
is returned only when a row came back; and on the table an `Update` for an id
that no row carries is reported as `ErrEditConflict`. -/
theorem Update_errors (movie : Movie) :
    (∀ {σ : Type} (db : DB σ) (s : σ),
      ((MovieModel.Update db s movie).2.2 = some Error.ErrEditConflict ↔
          ∃ e, (db.QueryRowContext s updateSQL [.text movie.Title, .int movie.Year,
            .int movie.Runtime, .array movie.Genres, .int movie.ID, .int movie.Version]).2
              = .error e ∧ e.isErrNoRows = true) ∧
      (∀ e, (db.QueryRowContext s updateSQL [.text movie.Title, .int movie.Year,
            .int movie.Runtime, .array movie.Genres, .int movie.ID, .int movie.Version]).2
              = .error e →
          e.isErrNoRows = false → (MovieModel.Update db s movie).2.2 = some (Error.sql e)) ∧
      ((MovieModel.Update db s movie).2.2 = none →
          ∃ v, (db.QueryRowContext s updateSQL [.text movie.Title, .int movie.Year,
            .int movie.Runtime, .array movie.Genres, .int movie.ID, .int movie.Version]).2
              = .ok [.int v])) ∧
    (∀ (fts : String → String → Bool) (st : Store), (∀ r ∈ st.rows, r.id ≠ movie.ID) →
        (MovieModel.Update (memDB fts) st movie).2.2 = some Error.ErrEditConflict) := by
  refine ⟨?_, ?_⟩
  · intro σ db s
    refine ⟨⟨?_, ?_⟩, ?_, ?_⟩
    · intro h
      unfold MovieModel.Update at h
      simp only at h
      cases hr : (db.QueryRowContext s updateSQL [.text movie.Title, .int movie.Year,
            .int movie.Runtime, .array movie.Genres, .int movie.ID, .int movie.Version]).2 with
      | error e =>
        refine ⟨e, rfl, ?_⟩
        simp only [hr, rowScan] at h
        by_cases he : e.isErrNoRows = true
        · exact he
        · simp [he] at h
      | ok cols =>
        simp only [hr, rowScan] at h
        cases hs : Scan [.Version] cols movie with
        | mk m oe =>
          rw [hs] at h
          cases oe with
          | none => simp at h
          | some err =>
            have := Scan_err _ _ _ _ _ hs
            simp [this] at h
    · rintro ⟨e, hr, he⟩
      simp [MovieModel.Update, hr, rowScan, he]
    · intro e hr he
      simp [MovieModel.Update, hr, rowScan, he]
    · intro h
      unfold MovieModel.Update at h
      simp only at h
      cases hr : (db.QueryRowContext s updateSQL [.text movie.Title, .int movie.Year,
            .int movie.Runtime, .array movie.Genres, .int movie.ID, .int movie.Version]).2 with
      | error e =>
        simp only [hr, rowScan] at h
        by_cases he : e.isErrNoRows = true <;> simp [he] at h
      | ok cols =>
        simp only [hr, rowScan] at h
        cases hs : Scan [.Version] cols movie with
        | mk m oe =>
          rw [hs] at h
          cases oe with
          | none =>
            obtain ⟨v, hv, -⟩ := Scan_version_ok _ _ _ hs
            exact ⟨v, by rw [hv]⟩
          | some err =>
            by_cases he : err.isErrNoRows = true <;> simp [he] at h
  · intro fts st hno
    have hf : st.rows.filter
        (fun r => decide (r.id = movie.ID ∧ r.version = movie.Version)) = [] := by
      rw [List.filter_eq_nil_iff]
      intro r hr
      simp [hno r hr]
    rw [memDB_Update, hf]

/-- Witness for C2: a wrapped `sql.ErrNoRows` becomes `ErrEditConflict`, a
connection error is handed on unchanged, and an update of the absent id 9 on
the sample table is an edit conflict. -/
theorem Update_errors_witness :
    (MovieModel.Update (failDB (.wrap "scan" .ErrNoRows)) ()
        ⟨2, 6, "Beta", 1999, 90, [], 3⟩).2.2 = some Error.ErrEditConflict ∧
    (MovieModel.Update (failDB (.other "connection refused")) ()
        ⟨2, 6, "Beta", 1999, 90, [], 3⟩).2.2
      = some (Error.sql (.other "connection refused")) ∧
    (MovieModel.Update (memDB exFts) exStore ⟨9, 0, "Nine", 2009, 99, [], 1⟩).2.2
      = some Error.ErrEditConflict :=
  ⟨((Update_errors ⟨2, 6, "Beta", 1999, 90, [], 3⟩).1
      (failDB (.wrap "scan" .ErrNoRows)) ()).1.2 ⟨_, rfl, rfl⟩,
   ((Update_errors ⟨2, 6, "Beta", 1999, 90, [], 3⟩).1
      (failDB (.other "connection refused")) ()).2.1 _ rfl rfl,
   (Update_errors ⟨9, 0, "Nine", 2009, 99, [], 1⟩).2 exFts exStore (by decide)⟩

/-- C3. For every id and every outcome of the store, `Get` returns
`(nil, ErrRecordNotFound)` exactly when the lookup reports `sql.ErrNoRows`
(possibly wrapped); any other store error `e` comes back as `(nil, e)`; and
when the store returns a row, `Get` returns a movie whose seven fields are
that row's columns, with a nil error. -/
theorem Get_outcomes {σ : Type} (db : DB σ) (s : σ) (id : Int) :
    ((MovieModel.Get db s id).2 = (none, some Error.ErrRecordNotFound) ↔
        ∃ e, (db.QueryRowContext s selectSQL [.int id]).2 = .error e ∧ e.isErrNoRows = true) ∧
    (∀ e, (db.QueryRowContext s selectSQL [.int id]).2 = .error e → e.isErrNoRows = false →
        (MovieModel.Get db s id).2 = (none, some (Error.sql e))) ∧
    (∀ (i c : Int) (t : String) (y rt : Int) (g : List String) (v : Int),
        (db.QueryRowContext s selectSQL [.int id]).2
          = .ok [.int i, .time c, .text t, .int y, .int rt, .array g, .int v] →
        (MovieModel.Get db s id).2 = (some ⟨i, c, t, y, rt, g, v⟩, none)) := by
  refine ⟨?_, ?_, ?_⟩
  · constructor
    · intro h
      unfold MovieModel.Get at h
      cases hr : (db.QueryRowContext s selectSQL [.int id]).2 with
      | error e =>
        refine ⟨e, rfl, ?_⟩
        simp only [hr, rowScan] at h
        by_cases he : e.isErrNoRows = true
        · exact he
        · simp [he] at h
      | ok cols =>
        simp only [hr, rowScan] at h
        cases hs : Scan movieDests cols Movie.zero with
        | mk m oe =>
          rw [hs] at h
          cases oe with
          | none => simp at h
          | some err =>
            have := Scan_err _ _ _ _ _ hs
            simp [this] at h
    · rintro ⟨e, hr, he⟩
      simp [MovieModel.Get, hr, rowScan, he]
  · intro e hr he
    simp [MovieModel.Get, hr, rowScan, he]
  · intro i c t y rt g v hr
    simp [MovieModel.Get, hr, rowScan, Scan_movieDests]

/-- Witness for C3: on the sample table id 7 is not found and id 2 is
returned with its columns; a timeout error is handed on unchanged. -/
theorem Get_outcomes_witness :
    (MovieModel.Get (memDB exFts) exStore 7).2 = (none, some Error.ErrRecordNotFound) ∧
    (MovieModel.Get (failDB (.other "context deadline exceeded")) () 2).2
      = (none, some (Error.sql (.other "context deadline exceeded"))) ∧
    (MovieModel.Get (memDB exFts) exStore 2).2
      = (some ⟨2, 6, "Beta", 1999, 90, ["drama", "comedy"], 3⟩, none) :=
  ⟨(Get_outcomes (memDB exFts) exStore 7).1.2 ⟨.ErrNoRows, rfl, rfl⟩,
   (Get_outcomes (failDB (.other "context deadline exceeded")) () 2).2.1 _ rfl rfl,
   (Get_outcomes (memDB exFts) exStore 2).2.2 2 6 "Beta" 1999 90 ["drama", "comedy"] 3 rfl⟩

/-- C4. For every id and every outcome of the store, `Delete` returns
`ErrRecordNotFound` exactly when the statement ran and reported zero affected
rows; it returns nil when at least one row was affected; an error of the
statement or of `RowsAffected` is returned unchanged. On the table: deleting
an id that a row carries returns nil and a following `Get` of that id returns
`ErrRecordNotFound`; deleting an id that no row carries returns
`ErrRecordNotFound`. -/
theorem Delete_outcomes (id : Int) :
    (∀ {σ : Type} (db : DB σ) (s : σ),
      ((MovieModel.Delete db s id).2 = some Error.ErrRecordNotFound ↔
          ∃ res, (db.ExecContext s deleteSQL [.int id]).2 = .ok res ∧ res.RowsAffected = .ok 0) ∧
      (∀ res n, (db.ExecContext s deleteSQL [.int id]).2 = .ok res → res.RowsAffected = .ok n →
          1 ≤ n → (MovieModel.Delete db s id).2 = none) ∧
      (∀ e, (db.ExecContext s deleteSQL [.int id]).2 = .error e →
          (MovieModel.Delete db s id).2 = some (Error.sql e)) ∧
      (∀ res e, (db.ExecContext s deleteSQL [.int id]).2 = .ok res →
          res.RowsAffected = .error e → (MovieModel.Delete db s id).2 = some (Error.sql e))) ∧
    (∀ (fts : String → String → Bool) (st : Store),
      ((∃ r ∈ st.rows, r.id = id) →
        (MovieModel.Delete (memDB fts) st id).2 = none ∧
        (MovieModel.Get (memDB fts) (MovieModel.Delete (memDB fts) st id).1 id).2
          = (none, some Error.ErrRecordNotFound)) ∧
      ((∀ r ∈ st.rows, r.id ≠ id) →
        (MovieModel.Delete (memDB fts) st id).2 = some Error.ErrRecordNotFound)) := by
  constructor
  · intro σ db s
    unfold MovieModel.Delete
    rcases hx : db.ExecContext s deleteSQL [.int id] with ⟨s1, e | res⟩
    · simp
    · rcases res with ⟨e | n⟩
      · refine ⟨by simp, ?_, by simp, ?_⟩
        · intro res n h1 h2; cases h1; cases h2
        · intro res e1 h1 h2; cases h1; cases h2; rfl
      · by_cases hn : n = 0
        · subst hn
          refine ⟨by simp, ?_, by simp, ?_⟩
          · intro res n h1 h2 h3; cases h1; cases h2; omega
          · intro res e1 h1 h2; cases h1; cases h2
        · refine ⟨?_, ?_, by simp, ?_⟩
          · simp [hn]
          · intro res n h1 h2 h3; cases h1; cases h2; simp [hn]
          · intro res e1 h1 h2; cases h1; cases h2
  · intro fts st
    constructor
    · rintro ⟨r, hr, hrid⟩
      rw [memDB_Delete]
      have hpos : st.rows.countP (fun r => decide (r.id = id)) ≠ 0 := by
        have : 0 < st.rows.countP (fun r => decide (r.id = id)) :=
          List.countP_pos_iff.2 ⟨r, hr, by simpa using hrid⟩
        omega
      refine ⟨by simp [hpos], ?_⟩
      rw [memDB_Get]
      simp only
      rw [find_id_none]
      intro x hx
      simpa using (List.mem_filter.1 hx).2
    · intro hno
      rw [memDB_Delete]
      have h0 : st.rows.countP (fun r => decide (r.id = id)) = 0 := by
        rw [List.countP_eq_zero]
        intro x hx
        simpa using hno x hx
      simp [h0]

/-- Witness for C4: zero affected rows is `ErrRecordNotFound`, two affected
rows is nil, a failing `RowsAffected` is handed on; on the sample table id 2
is deleted and then not found, and id 9 is not found. -/
theorem Delete_outcomes_witness :
    (MovieModel.Delete (countDB (.ok 0)) () 5).2 = some Error.ErrRecordNotFound ∧
    (MovieModel.Delete (countDB (.ok 2)) () 5).2 = none ∧
    (MovieModel.Delete (countDB (.error (.other "unsupported"))) () 5).2
      = some (Error.sql (.other "unsupported")) ∧
    (MovieModel.Delete (memDB exFts) exStore 2).2 = none ∧
    (MovieModel.Get (memDB exFts) (MovieModel.Delete (memDB exFts) exStore 2).1 2).2
      = (none, some Error.ErrRecordNotFound) ∧
    (MovieModel.Delete (memDB exFts) exStore 9).2 = some Error.ErrRecordNotFound :=
  ⟨((Delete_outcomes 5).1 (countDB (.ok 0)) ()).1.2 ⟨_, rfl, rfl⟩,
   ((Delete_outcomes 5).1 (countDB (.ok 2)) ()).2.1 _ 2 rfl rfl (by decide),
   ((Delete_outcomes 5).1 (countDB (.error (.other "unsupported"))) ()).2.2.2 _ _ rfl rfl,
   (((Delete_outcomes 2).2 exFts exStore).1 ⟨⟨2, 6, "Beta", 1999, 90, ["drama", "comedy"], 3⟩,
      by decide, rfl⟩).1,
   (((Delete_outcomes 2).2 exFts exStore).1 ⟨⟨2, 6, "Beta", 1999, 90, ["drama", "comedy"], 3⟩,
      by decide, rfl⟩).2,
   ((Delete_outcomes 9).2 exFts exStore).2 (by decide)⟩

/-- C5. For every movie, whatever ID, CreatedAt and Version it carries on
entry: when the store fails, `Insert` returns that error unchanged (and the
movie is untouched); when `Insert` returns nil, ID, CreatedAt and Version are
the three values the store returned and Title, Year, Runtime and Genres are
unchanged; and on a well-formed table `Insert` returns nil with ID > 0,
CreatedAt set and Version = 1. -/
theorem Insert_hydrates (movie : Movie) :
    (∀ {σ : Type} (db : DB σ) (s : σ) (e : SqlErr),
        (db.QueryRowContext s insertSQL [.text movie.Title, .int movie.Year, .int movie.Runtime,
          .array movie.Genres]).2 = .error e →
        (MovieModel.Insert db s movie).2 = (movie, some (Error.sql e))) ∧
    (∀ {σ : Type} (db : DB σ) (s : σ), (MovieModel.Insert db s movie).2.2 = none →
        ∃ i c v, (db.QueryRowContext s insertSQL [.text movie.Title, .int movie.Year,
            .int movie.Runtime, .array movie.Genres]).2 = .ok [.int i, .time c, .int v] ∧
          (MovieModel.Insert db s movie).2.1 = ⟨i, c, movie.Title, movie.Year, movie.Runtime,
            movie.Genres, v⟩) ∧
    (∀ (fts : String → String → Bool) (st : Store), st.WF →
        (MovieModel.Insert (memDB fts) st movie).2.2 = none ∧
        0 < (MovieModel.Insert (memDB fts) st movie).2.1.ID ∧
        (MovieModel.Insert (memDB fts) st movie).2.1.CreatedAt ≠ 0 ∧
        (MovieModel.Insert (memDB fts) st movie).2.1.Version = 1) := by
  refine ⟨?_, ?_, ?_⟩
  · intro σ db s e h
    simp [MovieModel.Insert, h, rowScan]
  · intro σ db s h
    unfold MovieModel.Insert at h ⊢
    simp only at h ⊢
    cases hr : (db.QueryRowContext s insertSQL [.text movie.Title, .int movie.Year,
            .int movie.Runtime, .array movie.Genres]).2 with
    | error e => simp [hr, rowScan] at h
    | ok cols =>
      simp only [hr, rowScan] at h ⊢
      cases hs : Scan [.ID, .CreatedAt, .Version] cols movie with
      | mk m oe =>
        rw [hs] at h
        cases oe with
        | some err => simp at h
        | none =>
          obtain ⟨i, c, v, hc, hm⟩ := Scan_insert_ok _ _ _ hs
          exact ⟨i, c, v, by rw [hc], by rw [hm]⟩
  · intro fts st hwf
    rw [memDB_Insert]
    exact ⟨rfl, hwf.2.2.1, hwf.2.2.2, rfl⟩

/-- Witness for C5 on the sample table: a movie entering with ID 77,
CreatedAt 88 and Version 99 leaves with ID 4, CreatedAt 9 and Version 1; a
store error is handed on unchanged. -/
theorem Insert_hydrates_witness :
    exStore.WF ∧
    (MovieModel.Insert (memDB exFts) exStore ⟨77, 88, "Delta", 2001, 110, ["noir"], 99⟩).2
      = (⟨4, 9, "Delta", 2001, 110, ["noir"], 1⟩, none) ∧
    0 < (MovieModel.Insert (memDB exFts) exStore
      ⟨77, 88, "Delta", 2001, 110, ["noir"], 99⟩).2.1.ID ∧
    (MovieModel.Insert (failDB .ErrNoRows) () ⟨77, 88, "Delta", 2001, 110, ["noir"], 99⟩).2
      = (⟨77, 88, "Delta", 2001, 110, ["noir"], 99⟩, some (Error.sql .ErrNoRows)) :=
  ⟨by decide, by decide,
   ((Insert_hydrates ⟨77, 88, "Delta", 2001, 110, ["noir"], 99⟩).2.2 exFts exStore
      (by decide)).2.1,
   (Insert_hydrates ⟨77, 88, "Delta", 2001, 110, ["noir"], 99⟩).1 (failDB .ErrNoRows) ()
      .ErrNoRows rfl⟩

/-- C6. Round trip on a well-formed table: `Insert(movie)` returns nil, and
`Get` of the ID that `Insert` wrote back returns a nil error and a movie equal
to the inserted one, field by field (ID, CreatedAt, Version as written back,
and the Title, Year, Runtime and Genres the caller supplied, genres in the
same order). -/
theorem Insert_Get_roundtrip (fts : String → String → Bool) (st : Store) (movie : Movie)
    (hwf : st.WF) :
    (MovieModel.Insert (memDB fts) st movie).2.2 = none ∧
    (MovieModel.Get (memDB fts) (MovieModel.Insert (memDB fts) st movie).1
        (MovieModel.Insert (memDB fts) st movie).2.1.ID).2
      = (some (MovieModel.Insert (memDB fts) st movie).2.1, none) ∧
    (MovieModel.Insert (memDB fts) st movie).2.1.Title = movie.Title ∧
    (MovieModel.Insert (memDB fts) st movie).2.1.Year = movie.Year ∧
    (MovieModel.Insert (memDB fts) st movie).2.1.Runtime = movie.Runtime ∧
    (MovieModel.Insert (memDB fts) st movie).2.1.Genres = movie.Genres := by
  rw [memDB_Insert]
  refine ⟨rfl, ?_, rfl, rfl, rfl, rfl⟩
  rw [memDB_Get]
  simp only
  have hnone : st.rows.find? (fun r => decide (r.id = st.nextID)) = none :=
    find_id_none _ _ (fun r hr => ne_of_lt (hwf.2.1 r hr).2)
  rw [List.find?_append, hnone]
  simp [Store.newRow, Row.toMovie]

/-- Witness for C6 on the sample table. -/
theorem Insert_Get_roundtrip_witness :
    exStore.WF ∧
    (MovieModel.Get (memDB exFts)
        (MovieModel.Insert (memDB exFts) exStore ⟨0, 0, "Delta", 2001, 110, ["noir", "drama"], 0⟩).1
        (MovieModel.Insert (memDB exFts) exStore
          ⟨0, 0, "Delta", 2001, 110, ["noir", "drama"], 0⟩).2.1.ID).2
      = (some (MovieModel.Insert (memDB exFts) exStore
          ⟨0, 0, "Delta", 2001, 110, ["noir", "drama"], 0⟩).2.1, none) ∧
    (MovieModel.Insert (memDB exFts) exStore
        ⟨0, 0, "Delta", 2001, 110, ["noir", "drama"], 0⟩).2.1.Genres = ["noir", "drama"] :=
  ⟨by decide,
   (Insert_Get_roundtrip exFts exStore ⟨0, 0, "Delta", 2001, 110, ["noir", "drama"], 0⟩
      (by decide)).2.1,
   (Insert_Get_roundtrip exFts exStore ⟨0, 0, "Delta", 2001, 110, ["noir", "drama"], 0⟩
      (by decide)).2.2.2.2.2⟩

/-- C7. Whenever `GetAllMovies` issues its query (the sort value has a
fragment), it returns, for every outcome of the store, either the movies with
a nil error or an empty (nil) slice with an error, never both a non-empty
slice and an error. With a nil error the slice holds one movie per row the
store yielded, in the store's order (so zero rows give a slice of length 0
and a nil error). A failed query, a row that fails to scan part-way through,
or a failing terminal `rows.Err()` each give the nil slice and that error
unchanged. -/
theorem GetAllMovies_outcomes {σ : Type} (db : DB σ) (s : σ) (title : String)
    (genres : Option (List String)) (f : Filters) (col : String) (hcol : f.sortColumn = some col) :
    ∃ out, MovieModel.GetAllMovies db s title genres f = some out ∧
      (out.2.2 = none ∨ out.2.1 = []) ∧
      (out.2.2 = none → ∃ rows, (db.QueryContext s (searchSQL col f.sortDirection)
          [.text title, pq.Array genres, .int f.limit, .int f.offset]).2 = .ok rows ∧
        rows.err = none ∧
        out.2.1 = rows.rows.map (fun cols => (Scan movieDests cols Movie.zero).1)) ∧
      (∀ e, (db.QueryContext s (searchSQL col f.sortDirection)
          [.text title, pq.Array genres, .int f.limit, .int f.offset]).2 = .error e →
        out.2 = ([], some (Error.sql e))) ∧
      (∀ (rows : Rows) (rs : List Row), (db.QueryContext s (searchSQL col f.sortDirection)
          [.text title, pq.Array genres, .int f.limit, .int f.offset]).2 = .ok rows →
        rows.rows = rs.map Row.cols → rows.err = none →
        out.2 = (rs.map Row.toMovie, none)) ∧
      (∀ (rows : Rows) (rs : List Row) (e : SqlErr),
        (db.QueryContext s (searchSQL col f.sortDirection)
          [.text title, pq.Array genres, .int f.limit, .int f.offset]).2 = .ok rows →
        rows.rows = rs.map Row.cols → rows.err = some e →
        out.2 = ([], some (Error.sql e))) ∧
      (∀ (rows : Rows) (rs : List Row) (bad : List Value) (post : List (List Value))
          (m : Movie) (e : SqlErr),
        (db.QueryContext s (searchSQL col f.sortDirection)
          [.text title, pq.Array genres, .int f.limit, .int f.offset]).2 = .ok rows →
        rows.rows = rs.map Row.cols ++ bad :: post →
        Scan movieDests bad Movie.zero = (m, some e) →
        out.2 = ([], some (Error.sql e))) := by
  unfold MovieModel.GetAllMovies
  rw [hcol]
  simp only
  rcases hq : db.QueryContext s (searchSQL col f.sortDirection)
          [.text title, pq.Array genres, .int f.limit, .int f.offset] with ⟨s1, e | rows⟩
  · refine ⟨_, rfl, Or.inr rfl, by simp, ?_, ?_, ?_, ?_⟩
    · intro e1 h; cases h; rfl
    · intro rows rs h; cases h
    · intro rows rs e1 h; cases h
    · intro rows rs bad post m e1 h; cases h
  · simp only
    cases hsc : scanRows rows.rows [] with
    | error e =>
      refine ⟨_, rfl, Or.inr rfl, by simp, ?_, ?_, ?_, ?_⟩
      · intro e1 h; cases h
      · intro rows1 rs h hr; cases h
        rw [hr, scanRows_rows] at hsc; cases hsc
      · intro rows1 rs e1 h hr; cases h
        rw [hr, scanRows_rows] at hsc; cases hsc
      · intro rows1 rs bad post m e1 h hr hbad; cases h
        rw [hr, scanRows_bad rs bad post m e1 hbad] at hsc
        cases hsc; rfl
    | ok movies =>
      cases herr : rows.err with
      | some e =>
        refine ⟨_, rfl, Or.inr rfl, by simp, ?_, ?_, ?_, ?_⟩
        · intro e1 h; cases h
        · intro rows1 rs h hr he; cases h
          rw [herr] at he; cases he
        · intro rows1 rs e1 h hr he; cases h
          rw [herr] at he; cases he; rfl
        · intro rows1 rs bad post m e1 h hr hbad; cases h
          rw [hr, scanRows_bad rs bad post m e1 hbad] at hsc
          cases hsc
      | none =>
        refine ⟨_, rfl, Or.inl rfl, ?_, ?_, ?_, ?_, ?_⟩
        · intro _
          refine ⟨rows, rfl, herr, ?_⟩
          have := scanRows_ok _ _ _ hsc
          simpa using this
        · intro e1 h; cases h
        · intro rows1 rs h hr he; cases h
          rw [hr, scanRows_rows] at hsc; cases hsc
          simp
        · intro rows1 rs e1 h hr he; cases h
          rw [herr] at he; cases he
        · intro rows1 rs bad post m e1 h hr hbad; cases h
          rw [hr, scanRows_bad rs bad post m e1 hbad] at hsc
          cases hsc

/-- Witness for C7: a result set whose second row is malformed gives the nil
slice and the scan error, and an empty result set gives a slice of length 0
with a nil error. -/
theorem GetAllMovies_outcomes_witness :
    (⟨1, 20, "-year"⟩ : Filters).sortColumn = some "year" ∧
    (MovieModel.GetAllMovies (rowsDB [Row.cols ⟨1, 5, "Alpha", 2000, 100, ["drama"], 1⟩,
        [.text "oops"]] none) () "" none ⟨1, 20, "-year"⟩).map (fun out => out.2)
      = some ([], some (Error.sql
          (.other "sql: wrong number of destination arguments in Scan"))) ∧
    (MovieModel.GetAllMovies (rowsDB [] none) () "" (some []) ⟨1, 20, "-year"⟩).map
        (fun out => out.2) = some ([], none) := by
  refine ⟨by decide, ?_, ?_⟩
  · obtain ⟨out, h1, -, -, -, -, -, h6⟩ := GetAllMovies_outcomes
      (rowsDB [Row.cols ⟨1, 5, "Alpha", 2000, 100, ["drama"], 1⟩, [.text "oops"]] none) ()
      "" none ⟨1, 20, "-year"⟩ "year" (by decide)
    rw [h1]
    exact congrArg some (h6 _ [⟨1, 5, "Alpha", 2000, 100, ["drama"], 1⟩] [.text "oops"] []
      Movie.zero _ rfl rfl rfl)
  · obtain ⟨out, h1, -, -, -, h4, -, -⟩ := GetAllMovies_outcomes
      (rowsDB [] none) () "" (some []) ⟨1, 20, "-year"⟩ "year" (by decide)
    rw [h1]
    exact congrArg some (h4 _ [] rfl rfl rfl)

/-- C8. For every Filters with Page >= 1, PageSize in 1..100 and a sort
value of the allow-list, `GetAllMovies` hands the store a statement ending in
`ORDER BY <column> <direction>, id ASC LIMIT $3 OFFSET $4` with $3 = PageSize
and $4 = (Page-1) * PageSize. On a well-formed table the call returns the
rows `OFFSET .. OFFSET+LIMIT` of the ordered matching rows; the results of
page 1 and page 2 concatenated are the first 2 * PageSize ordered matching
rows and carry no ID twice; and the ordered matching rows are the matching
rows sorted by `ORDER BY <column> <direction>, id ASC`. -/
theorem GetAllMovies_pagination (fts : String → String → Bool) (st : Store) (title : String)
    (genres : Option (List String)) (f : Filters) (col : String)
    (hpage : 1 ≤ f.Page) (hps : 1 ≤ f.PageSize ∧ f.PageSize ≤ 100)
    (hcol : f.sortColumn = some col) (hwf : st.WF) :
    (MovieModel.GetAllMovies recDB [] title genres f).map (fun out => out.1)
      = some [("\n\tSELECT id, created_at, title, year, runtime, genres, version\n\tFROM movies\n\tWHERE (to_tsvector('simple', title) @@ plainto_tsquery('simple', $1) OR $1 = '')\n\tAND (genres @> $2 OR $2 = '\x7b\x7d')\n\tORDER BY "
            ++ col ++ " " ++ f.sortDirection ++ ", id ASC LIMIT $3 OFFSET $4",
          [.text title, pq.Array genres, .int f.PageSize, .int ((f.Page - 1) * f.PageSize)])] ∧
    MovieModel.GetAllMovies (memDB fts) st title genres f
      = some (st, (((st.orderedMatches fts title genres col f.sortDirection).drop
          ((f.Page - 1) * f.PageSize).toNat).take f.PageSize.toNat).map Row.toMovie, none) ∧
    (∃ p1 p2,
      MovieModel.GetAllMovies (memDB fts) st title genres { f with Page := 1 }
        = some (st, p1, none) ∧
      MovieModel.GetAllMovies (memDB fts) st title genres { f with Page := 2 }
        = some (st, p2, none) ∧
      p1 ++ p2 = ((st.orderedMatches fts title genres col f.sortDirection).take
          (2 * f.PageSize.toNat)).map Row.toMovie ∧
      ((p1 ++ p2).map Movie.ID).Nodup) ∧
    List.Sorted (fun a b => orderBy col f.sortDirection a b = true)
      (st.orderedMatches fts title genres col f.sortDirection) ∧
    (st.orderedMatches fts title genres col f.sortDirection).Perm
      (st.rows.filter (Row.matchesSearch fts title genres)) := by
  have hl : 0 ≤ f.limit := by unfold Filters.limit; omega
  have ho : 0 ≤ f.offset := by
    unfold Filters.offset
    exact mul_nonneg (by omega) (by omega)
  refine ⟨?_, ?_, ?_, orderedMatches_sorted _ _ _ _ _ _, orderedMatches_perm _ _ _ _ _ _⟩
  · rw [recDB_GetAllMovies _ _ _ _ _ hcol]
    rfl
  · exact memDB_GetAllMovies fts st title genres f col hcol hl ho
  · have h1 := memDB_GetAllMovies fts st title genres { f with Page := 1 } col hcol
      (by simpa [Filters.limit] using hl) (by simp [Filters.offset])
    have h2 := memDB_GetAllMovies fts st title genres { f with Page := 2 } col hcol
      (by simpa [Filters.limit] using hl) (by simp [Filters.offset]; omega)
    have hcat : (((st.orderedMatches fts title genres col
          ({ f with Page := 1 } : Filters).sortDirection).drop
            ({ f with Page := 1 } : Filters).offset.toNat).take
            ({ f with Page := 1 } : Filters).limit.toNat).map Row.toMovie ++
        (((st.orderedMatches fts title genres col
          ({ f with Page := 2 } : Filters).sortDirection).drop
            ({ f with Page := 2 } : Filters).offset.toNat).take
            ({ f with Page := 2 } : Filters).limit.toNat).map Row.toMovie
        = ((st.orderedMatches fts title genres col f.sortDirection).take
          (2 * f.PageSize.toNat)).map Row.toMovie := by
      have e1 : ({ f with Page := 1 } : Filters).offset.toNat = 0 := by simp [Filters.offset]
      have e2 : ({ f with Page := 2 } : Filters).offset.toNat = f.PageSize.toNat := by
        simp [Filters.offset]
      have e3 : ({ f with Page := 1 } : Filters).limit.toNat = f.PageSize.toNat := rfl
      have e4 : ({ f with Page := 2 } : Filters).limit.toNat = f.PageSize.toNat := rfl
      have e5 : ({ f with Page := 1 } : Filters).sortDirection = f.sortDirection := rfl
      have e6 : ({ f with Page := 2 } : Filters).sortDirection = f.sortDirection := rfl
      rw [e1, e2, e3, e4, e5, e6, two_mul, List.take_add, List.map_append, List.drop_zero]
    refine ⟨_, _, h1, h2, hcat, ?_⟩
    rw [hcat]
    exact take_ids_nodup _ _ (orderedMatches_ids_nodup _ _ _ _ _ _ hwf.1)

/-- Witness for C8 on the sample table with two rows per page, sorted by
descending year: page 1 holds ids 1 and 2, page 2 holds id 3. -/
theorem GetAllMovies_pagination_witness :
    (1 : Int) ≤ (⟨1, 2, "-year"⟩ : Filters).Page ∧
    ((1 : Int) ≤ (⟨1, 2, "-year"⟩ : Filters).PageSize ∧
      (⟨1, 2, "-year"⟩ : Filters).PageSize ≤ 100) ∧
    (⟨1, 2, "-year"⟩ : Filters).sortColumn = some "year" ∧ exStore.WF ∧
    (MovieModel.GetAllMovies recDB [] "" (some []) ⟨1, 2, "-year"⟩).map (fun out => out.1)
      = some [(searchSQL "year" "DESC", [.text "", .array [], .int 2, .int 0])] ∧
    MovieModel.GetAllMovies (memDB exFts) exStore "" (some []) ⟨1, 2, "-year"⟩
      = some (exStore, [⟨1, 5, "Alpha", 2000, 100, ["drama"], 1⟩,
          ⟨2, 6, "Beta", 1999, 90, ["drama", "comedy"], 3⟩], none) := by
  have h := GetAllMovies_pagination exFts exStore "" (some []) ⟨1, 2, "-year"⟩ "year"
    (by decide) (by decide) (by decide) (by decide)
  refine ⟨by decide, by decide, by decide, by decide, h.1, ?_⟩
  rw [h.2.1]
  decide

/-- C9. The claim fails on the code at the nil genres slice, a genres
argument with no elements: `pq.Array` binds it as SQL NULL, the WHERE clause
`(genres @> $2 OR $2 = '{}')` is then TRUE on no row, and
`GetAllMovies("", nil, {1, 20, "id"})` on the sample table of three rows
returns no movie, with a nil error. The claim has every row pass, which is
what the same call does for the empty non-nil slice: it returns the three
rows in ascending id order. -/
theorem GetAllMovies_nil_genres :
    pq.Array none = Value.null ∧
    (∀ (fts : String → String → Bool) (title : String) (r : Row),
      Row.matchesSearch fts title none r = false) ∧
    MovieModel.GetAllMovies (memDB exFts) exStore "" none ⟨1, 20, "id"⟩
      = some (exStore, [], none) ∧
    MovieModel.GetAllMovies (memDB exFts) exStore "" (some []) ⟨1, 20, "id"⟩
      = some (exStore, [⟨1, 5, "Alpha", 2000, 100, ["drama"], 1⟩,
          ⟨2, 6, "Beta", 1999, 90, ["drama", "comedy"], 3⟩,
          ⟨3, 7, "Gamma", 1999, 80, [], 1⟩], none) := by
  refine ⟨rfl, matchesSearch_nil, ?_, ?_⟩
  · rw [memDB_GetAllMovies exFts exStore "" none ⟨1, 20, "id"⟩ "id" (by decide) (by decide)
      (by decide)]
    decide
  · rw [memDB_GetAllMovies exFts exStore "" (some []) ⟨1, 20, "id"⟩ "id" (by decide)
      (by decide) (by decide)]
    decide

/-- C10. For every Filters value, title and genres: a sort value outside the
allow-list (id, title, year, runtime and their "-" variants) yields no query
at all; otherwise the one statement handed to the store has as its ORDER BY
fragment an allow-listed column followed by ASC or DESC, DESC exactly when
the sort value is the "-" variant of that column; title and genres travel
only as the bound parameters $1 and $2, and the statement text is the same
whatever title and genres are. -/
theorem GetAllMovies_query_text (title : String) (genres : Option (List String)) (f : Filters) :
    (f.SortColumn ∉ ["id", "title", "year", "runtime", "-id", "-title", "-year", "-runtime"] →
      ∀ {σ : Type} (db : DB σ) (s : σ), MovieModel.GetAllMovies db s title genres f = none) ∧
    (∀ out, MovieModel.GetAllMovies recDB [] title genres f = some out →
      ∃ col dir, col ∈ ["id", "title", "year", "runtime"] ∧ dir ∈ ["ASC", "DESC"] ∧
        (dir = "DESC" ↔ f.SortColumn = "-" ++ col) ∧ (dir = "ASC" ↔ f.SortColumn = col) ∧
        out.1 = [(searchSQL col dir,
          [.text title, pq.Array genres, .int f.limit, .int f.offset])]) ∧
    (∀ (title1 : String) (genres1 : Option (List String)),
      (MovieModel.GetAllMovies recDB [] title1 genres1 f).map (fun out => out.1.map Prod.fst)
        = (MovieModel.GetAllMovies recDB [] title genres f).map
            (fun out => out.1.map Prod.fst)) := by
  refine ⟨?_, ?_, ?_⟩
  · intro h σ db s
    exact GetAllMovies_none db s title genres f (sortColumn_of_not_mem f h)
  · intro out hout
    cases hc : f.sortColumn with
    | none => rw [GetAllMovies_none _ _ _ _ _ hc] at hout; cases hout
    | some col =>
      rw [recDB_GetAllMovies _ _ _ _ _ hc] at hout
      cases hout
      obtain ⟨hcol, hdir⟩ := sortColumn_some f col hc
      refine ⟨col, f.sortDirection, ?_, ?_, ?_, ?_, rfl⟩
      · simp only [List.mem_cons, List.mem_singleton, List.not_mem_nil, or_false]; exact hcol
      · rcases hdir with h | h <;> simp [h.2]
      · rcases hdir with h | h
        · rw [h.1, h.2]
          rcases hcol with h' | h' | h' | h' <;> subst h' <;> decide
        · rw [h.1, h.2]; simp
      · rcases hdir with h | h
        · rw [h.1, h.2]; simp
        · rw [h.1, h.2]
          rcases hcol with h' | h' | h' | h' <;> subst h' <;> decide
  · intro title1 genres1
    cases hc : f.sortColumn with
    | none => rw [GetAllMovies_none _ _ _ _ _ hc, GetAllMovies_none _ _ _ _ _ hc]
    | some col =>
      rw [recDB_GetAllMovies _ _ _ _ _ hc, recDB_GetAllMovies _ _ _ _ _ hc]
      rfl

/-- Witness for C10: a sort value carrying SQL text yields no query, and
hostile title text leaves the statement text as it is for an empty title. -/
theorem GetAllMovies_query_text_witness :
    MovieModel.GetAllMovies (memDB exFts) exStore "x" none ⟨1, 20, "id; DROP TABLE movies"⟩
      = none ∧
    (MovieModel.GetAllMovies recDB [] "" none ⟨1, 20, "-title"⟩).map
        (fun out => out.1.map Prod.fst)
      = (MovieModel.GetAllMovies recDB [] "x OR 1=1" (some ["a"]) ⟨1, 20, "-title"⟩).map
        (fun out => out.1.map Prod.fst) :=
  ⟨(GetAllMovies_query_text "x" none ⟨1, 20, "id; DROP TABLE movies"⟩).1 (by decide)
      (memDB exFts) exStore,
   (GetAllMovies_query_text "x OR 1=1" (some ["a"]) ⟨1, 20, "-title"⟩).2.2 "" none⟩

end Greenlight
